import Mathlib

/-!
Verification development for the kiro2cc protocol-translation gateway
(Go sources: `main.go` and `parser/sse_parser.go`).

The Go code is shallowly embedded as executable Lean definitions:

* pure data transformations (event conversion, event parsing, content
  extraction, request building, aggregate assembly, stream emission,
  error classification) become Lean functions over structured values
  mirroring the Go structs and the JSON maps the Go code builds;
* the Go standard library `encoding/json.Unmarshal` used on the
  accumulated `partial_json` text is modelled by a small executable
  JSON-object parser restricted to flat objects with string keys and
  string values (the only shapes the verified properties exercise);
* side effects (HTTP writes, credential refresh, `os.Exit`) are
  represented as data: each error-handling branch is translated to a
  value recording how many refresh attempts it performs, how many times
  it re-sends the upstream request, and what report (if any) it writes
  to the caller.

Go byte-lengths (`len` on a string) are modelled by `String.length`;
all strings the properties evaluate are ASCII, where the two agree.
-/

namespace Kiro2cc

/-! ## Event normalizer (`parser/sse_parser.go`) -/

/-- `assistantResponseEvent` from `parser/sse_parser.go`: one decoded
backend event record.  `input` is `*string` in Go, modelled as
`Option String`. -/
structure AssistantResponseEvent where
  content : String
  input : Option String
  name : String
  toolUseId : String
  stop : Bool
deriving Repr, DecidableEq

/-- The `delta` sub-map of a `content_block_delta` data map built by
`convertAssistantEventToSSE`: either a `text_delta` (with `text`) or an
`input_json_delta` (with `id`, `name`, `partial_json`). -/
inductive DeltaPayload where
  | textDelta (text : String)
  | inputJsonDelta (id : String) (name : String) (pJson : String)
deriving Repr, DecidableEq

/-- The `Data` maps produced by the parser (`map[string]interface{}` in
Go), represented structurally: the `type` field becomes the constructor,
the `index` field is explicit, and the payload fields are the
constructor arguments.  `nullData` is Go's `nil` data of the
zero-valued `SSEEvent{}`. -/
inductive SSEData where
  | contentBlockDelta (index : Nat) (delta : DeltaPayload)
  | contentBlockStart (index : Nat) (id : String) (name : String)
  | contentBlockStop (index : Nat)
  | messageDelta (stopReason : String) (outputTokens : Nat)
  | nullData
deriving Repr, DecidableEq

/-- `SSEEvent` from `parser/sse_parser.go`: an event name plus its data
map. -/
structure SSEEvent where
  event : String
  data : SSEData
deriving Repr, DecidableEq

/-- `convertAssistantEventToSSE` (`parser/sse_parser.go` lines
137-193), translated branch for branch: non-empty content becomes a
slot-0 `text_delta`; a non-stop fragment with tool id and name becomes
a slot-1 `content_block_start` (no input yet) or slot-1
`input_json_delta`; otherwise a stop flag becomes a slot-1
`content_block_stop`; anything else is the zero `SSEEvent{}`. -/
def convertAssistantEventToSSE (evt : AssistantResponseEvent) : SSEEvent :=
  if evt.content ≠ "" then
    ⟨"content_block_delta", .contentBlockDelta 0 (.textDelta evt.content)⟩
  else if evt.toolUseId ≠ "" ∧ evt.name ≠ "" ∧ ¬evt.stop then
    match evt.input with
    | none => ⟨"content_block_start", .contentBlockStart 1 evt.toolUseId evt.name⟩
    | some inp =>
        ⟨"content_block_delta", .contentBlockDelta 1 (.inputJsonDelta evt.toolUseId evt.name inp)⟩
  else if evt.stop then
    ⟨"content_block_stop", .contentBlockStop 1⟩
  else
    ⟨"", .nullData⟩

/-- One line of the backend reply as seen by the standard-SSE branch of
`ParseEvents` (`parser/sse_parser.go` lines 37-76), after the line-level
processing that the Go code does with `strings.Split`, `TrimSpace` and
the `data: ` prefix: a data line whose JSON decodes to an
`assistantResponseEvent`, the `[DONE]` sentinel, a data line whose JSON
fails to decode (logged and skipped), or any non-data line. -/
inductive RawLine where
  | data (evt : AssistantResponseEvent)
  | done
  | malformed
  | other
deriving Repr, DecidableEq

/-- `ParseEvents` (`parser/sse_parser.go` lines 29-79), standard-SSE
branch, at line granularity: each decoded record is converted with
`convertAssistantEventToSSE`; a record carrying tool id, name and the
stop flag additionally appends a `message_delta` with stop reason
`tool_use`; `[DONE]` breaks the loop; malformed and non-data lines are
skipped. -/
def parseEvents : List RawLine → List SSEEvent
  | [] => []
  | .done :: _ => []
  | .data evt :: rest =>
      (convertAssistantEventToSSE evt ::
        (if evt.toolUseId ≠ "" ∧ evt.name ≠ "" ∧ evt.stop then
          [⟨"message_delta", .messageDelta "tool_use" 0⟩]
        else [])) ++ parseEvents rest
  | .malformed :: rest => parseEvents rest
  | .other :: rest => parseEvents rest

/-! ## Model of `encoding/json.Unmarshal` on accumulated tool input

`handleNonStreamRequest` unmarshals the concatenated `partial_json`
text into `map[string]interface{}`.  Modelled from the Go standard
library `encoding/json.Unmarshal`, restricted to flat JSON objects with
string keys and string values and without escape sequences — the only
shapes the verified properties exercise; every other input is rejected
(`none`), matching Go's rejection of every non-object input. -/

def quoteChar : Char := Char.ofNat 34

def lbraceChar : Char := Char.ofNat 123

def rbraceChar : Char := Char.ofNat 125

def isWsChar (c : Char) : Bool :=
  c = ' ' || c = Char.ofNat 9 || c = Char.ofNat 10 || c = Char.ofNat 13

/-- Model of Go `strings.TrimSpace`: drop leading and trailing
whitespace (ASCII whitespace; Go also trims other Unicode space, which
no embedded string exercises). -/
def trimSpace (s : String) : String :=
  ⟨((s.data.dropWhile isWsChar).reverse.dropWhile isWsChar).reverse⟩

def skipWs (cs : List Char) : List Char := cs.dropWhile isWsChar

/-- Scan a JSON string body up to (and consuming) the closing quote. -/
def scanChars : List Char → Option (List Char × List Char)
  | [] => none
  | c :: rest =>
      if c = quoteChar then some ([], rest)
      else
        match scanChars rest with
        | some (s, r) => some (c :: s, r)
        | none => none

/-- Parse the members of a JSON object after the opening brace, ending
at (and consuming) the closing brace.  Fueled by the input length. -/
def parseMembers : Nat → List Char → Option (List (String × String) × List Char)
  | 0, _ => none
  | fuel + 1, cs =>
      match skipWs cs with
      | c :: rest =>
          if c = quoteChar then
            match scanChars rest with
            | none => none
            | some (key, r1) =>
                match skipWs r1 with
                | c2 :: r2 =>
                    if c2 = ':' then
                      match skipWs r2 with
                      | c3 :: r3 =>
                          if c3 = quoteChar then
                            match scanChars r3 with
                            | none => none
                            | some (v, r4) =>
                                match skipWs r4 with
                                | c4 :: r5 =>
                                    if c4 = ',' then
                                      match parseMembers fuel r5 with
                                      | some (ms, r6) =>
                                          some ((String.mk key, String.mk v) :: ms, r6)
                                      | none => none
                                    else if c4 = rbraceChar then
                                      some ([(String.mk key, String.mk v)], r5)
                                    else none
                                | [] => none
                          else none
                      | [] => none
                    else none
                | [] => none
          else none
      | [] => none

/-- Model of `json.Unmarshal(partialJsonStr, &toolInput)`: parse a flat
JSON object with string keys and string values; `none` is a parse
failure. -/
def jsonUnmarshalObj (s : String) : Option (List (String × String)) :=
  match skipWs s.data with
  | c :: rest =>
      if c = lbraceChar then
        match skipWs rest with
        | c2 :: r2 =>
            if c2 = rbraceChar then
              if (skipWs r2).isEmpty then some [] else none
            else
              match parseMembers (rest.length + 1) rest with
              | some (ms, r) => if (skipWs r).isEmpty then some ms else none
              | none => none
        | [] => none
      else none
  | [] => none

/-! ## Content extractor (`main.go` `getMessageContent`, lines 145-193) -/

/-- `ContentBlock` from `main.go` as decoded from a block map by the
marshal/unmarshal round trip inside `getMessageContent`.  The `Input`
field (`*any`) is never read by the embedded code paths and is
omitted. -/
structure ContentBlock where
  ty : String
  text : Option String
  toolUseId : Option String
  content : Option String
  name : Option String
deriving Repr, DecidableEq

/-- One element of a `[]interface{}` content list: either a JSON object
that decodes to a `ContentBlock`, or any other element (not a map, or
failing the round trip), which the Go loop skips. -/
inductive BlockListItem where
  | block (cb : ContentBlock)
  | nonMap
deriving Repr, DecidableEq

/-- The dynamic `content any` value handed to `getMessageContent`:
a Go `string`, a `[]interface{}` block list, Go `nil` (JSON null), or
any other shape (e.g. a `map`), which falls into the `default`
branch. -/
inductive MessageContent where
  | str (s : String)
  | blocks (items : List BlockListItem)
  | nullV
  | objMap
deriving Repr, DecidableEq

/-- The `texts` accumulation loop of `getMessageContent`: `tool_result`
blocks contribute their `content`, `text` blocks their `text`,
`tool_use` blocks and everything else contribute nothing. -/
def collectTexts : List BlockListItem → List String
  | [] => []
  | .block cb :: rest =>
      (match cb.ty with
        | "tool_result" => (match cb.content with | some c => [c] | none => [])
        | "text" => (match cb.text with | some t => [t] | none => [])
        | "tool_use" => []
        | _ => []) ++ collectTexts rest
  | .nonMap :: rest => collectTexts rest

/-- `getMessageContent` (`main.go` lines 145-193): flat text is
returned verbatim unless whitespace-only; block lists concatenate the
collected texts with newlines, or fall back to the fixed placeholder
when nothing was collected; `nil` and unknown shapes take the `default`
branch, whose `json.Marshal` succeeds for these values, and return the
placeholder. -/
def getMessageContent : MessageContent → String
  | .str v => if (trimSpace v).length = 0 then "Please provide a response." else v
  | .blocks items =>
      let texts := collectTexts items
      if texts.isEmpty then "Please provide a response."
      else String.intercalate "\n" texts
  | .nullV => "Please provide a response."
  | .objMap => "Please provide a response."

/-! ## Aggregate assembly (`main.go` `handleNonStreamRequest`,
lines 1079-1182) -/

/-- One finished content block of the aggregate response: the maps
appended to `contexts`. The tool input is the unmarshalled flat
object. -/
inductive AggBlock where
  | toolUse (id : String) (name : String) (input : List (String × String))
  | text (t : String)
deriving Repr, DecidableEq

/-- The mutable locals of the event fold in `handleNonStreamRequest`
(`context`, `toolName`, `toolUseId`, `partialJsonStr`, `contexts`). -/
structure AggState where
  context : String
  toolName : String
  toolUseId : String
  pJsonStr : String
  contexts : List AggBlock
deriving Repr, DecidableEq

/-- One iteration of the event loop in `handleNonStreamRequest` (lines
1088-1148): dispatch on the data map's `type`; `content_block_start`
resets the text accumulator; `text_delta` extends it;
`input_json_delta` records tool id/name and extends the accumulated
input text; `content_block_stop` with index 1 unmarshals the
accumulated input (an error leaves the empty object) and appends a
`tool_use` block, with index 0 appends the text block; events with
`nil` data or other types are ignored. -/
def aggStep (st : AggState) (e : SSEEvent) : AggState :=
  match e.data with
  | .nullData => st
  | .contentBlockStart _ _ _ => { st with context := "" }
  | .contentBlockDelta _ (.textDelta t) => { st with context := st.context ++ t }
  | .contentBlockDelta _ (.inputJsonDelta id name pj) =>
      { st with toolUseId := id, toolName := name, pJsonStr := st.pJsonStr ++ pj }
  | .contentBlockStop idx =>
      if idx = 1 then
        let toolInput := (jsonUnmarshalObj st.pJsonStr).getD []
        { st with contexts := st.contexts ++ [.toolUse st.toolUseId st.toolName toolInput] }
      else if idx = 0 then
        { st with contexts := st.contexts ++ [.text st.context] }
      else st
  | .messageDelta _ _ => st

/-- The state after folding all parsed events, starting from the
zero-valued locals. -/
def aggFold (events : List SSEEvent) : AggState :=
  events.foldl aggStep ⟨"", "", "", "", []⟩

/-- The final `contexts` list of `handleNonStreamRequest`, including
the fallback (lines 1150-1156): if no block was finished but text was
accumulated, emit the text anyway. -/
def aggregateContexts (events : List SSEEvent) : List AggBlock :=
  let st := aggFold events
  if st.contexts.isEmpty ∧ trimSpace st.context ≠ "" then [.text st.context]
  else st.contexts

/-- The aggregate Anthropic response object built at lines 1166-1177
(the fields the properties read). `inputTokens` is the byte length of
the current-turn content, `outputTokens` the length of the accumulated
text. -/
structure AnthropicResponse where
  content : List AggBlock
  model : String
  role : String
  stopReason : String
  inputTokens : Nat
  outputTokens : Nat
deriving Repr, DecidableEq

/-- `handleNonStreamRequest`'s successful response assembly for a
parsed event list, given the request model and the current-turn content
string sent upstream. -/
def nonStreamResponse (model : String) (currentContent : String)
    (events : List SSEEvent) : AnthropicResponse :=
  { content := aggregateContexts events
    model := model
    role := "assistant"
    stopReason := "end_turn"
    inputTokens := currentContent.length
    outputTokens := (aggFold events).context.length }

/-! ## Stream emission (`main.go` `handleStreamRequest`,
lines 923-990) -/

/-- The JSON payload of one emitted SSE envelope event: the synthetic
envelope payloads built inline in `handleStreamRequest`, or a forwarded
parser data map. -/
inductive EnvData where
  | messageStartData (messageId : String) (model : String)
      (inputTokens : Nat) (outputTokens : Nat)
  | pingData
  | contentBlockStartText (index : Nat)
  | contentBlockStopData (index : Nat)
  | messageDeltaData (stopReason : String) (outputTokens : Nat)
  | messageStopData
  | fromParser (d : SSEData)
deriving Repr, DecidableEq

/-- The `index` field carried by an envelope payload, when it has
one. -/
def envIndex : EnvData → Option Nat
  | .contentBlockStartText i => some i
  | .contentBlockStopData i => some i
  | .fromParser (.contentBlockDelta i _) => some i
  | .fromParser (.contentBlockStart i _ _) => some i
  | .fromParser (.contentBlockStop i) => some i
  | _ => none

/-- The dynamic shape of a forwarded event's `e.Data` as seen by
`getMessageContent` inside the streaming token counter: every parser
data map is a `map[string]interface{}` (the `default` branch of
`getMessageContent`), and the zero event's data is `nil`. -/
def dataAsContent : SSEData → MessageContent
  | .nullData => .nullV
  | _ => .objMap

/-- The `outputTokens` fold of `handleStreamRequest` (lines 959-969):
each forwarded `content_block_delta` overwrites the counter with
`len(getMessageContent(e.Data))`. -/
def streamOutputTokens (events : List SSEEvent) : Nat :=
  events.foldl
    (fun acc e =>
      if e.event = "content_block_delta" then
        (getMessageContent (dataAsContent e.data)).length
      else acc)
    0

/-- The ordered envelope events written by `handleStreamRequest`
(lines 925-988) for a parsed event list: nothing at all when the list
is empty; otherwise `message_start`, `ping`, the synthetic slot-0
`content_block_start`, the parsed events forwarded 1:1 as
`(e.Event, e.Data)`, the synthetic slot-0 `content_block_stop`, the
closing `message_delta` (stop reason `end_turn`, the folded token
counter) and `message_stop`.  `inputTokens` is
`len(getMessageContent(Messages[0].Content))` computed by the caller;
the randomized pacing sleep does not affect the emitted sequence. -/
def streamEmission (messageId : String) (model : String) (inputTokens : Nat)
    (events : List SSEEvent) : List (String × EnvData) :=
  if events.isEmpty then []
  else
    [("message_start", .messageStartData messageId model inputTokens 1),
     ("ping", .pingData),
     ("content_block_start", .contentBlockStartText 0)]
    ++ events.map (fun e => (e.event, .fromParser e.data))
    ++ [("content_block_stop", .contentBlockStopData 0),
        ("message_delta", .messageDeltaData "end_turn" (streamOutputTokens events)),
        ("message_stop", .messageStopData)]

/-- An emitted envelope pair that is a `content_block_start` with
index 0. -/
def isCBStart0 (p : String × EnvData) : Bool :=
  p.1 = "content_block_start" ∧ envIndex p.2 = some 0

/-- An emitted envelope pair that is a `content_block_delta` with
index 0. -/
def isDelta0 (p : String × EnvData) : Bool :=
  p.1 = "content_block_delta" ∧ envIndex p.2 = some 0

/-! ## Request translation (`main.go` `buildCodeWhispererRequest`,
lines 251-337) -/

/-- `AnthropicTool` (`main.go` lines 42-46); the free-form
`input_schema` map is carried as an uninterpreted value. -/
structure AnthropicTool where
  name : String
  description : String
  inputSchema : List (String × String)
deriving Repr, DecidableEq

/-- `CodeWhispererTool` / `ToolSpecification` / `InputSchema`
(`main.go` lines 49-63). -/
structure CodeWhispererTool where
  name : String
  description : String
  inputSchemaJson : List (String × String)
deriving Repr, DecidableEq

/-- `AnthropicSystemMessage` (`main.go` lines 129-132). -/
structure AnthropicSystemMessage where
  ty : String
  text : String
deriving Repr, DecidableEq

/-- `AnthropicRequestMessage` (`main.go` lines 124-127). -/
structure AnthropicRequestMessage where
  role : String
  content : MessageContent
deriving Repr, DecidableEq

/-- `AnthropicRequest` (`main.go` lines 92-101); `temperature` and
`metadata` are never read by the embedded code paths and are
omitted. -/
structure AnthropicRequest where
  model : String
  maxTokens : Int
  messages : List AnthropicRequestMessage
  system : List AnthropicSystemMessage
  tools : List AnthropicTool
  stream : Bool
deriving Repr, DecidableEq

/-- `ModelMap` (`main.go` lines 230-238) as an association list in
source order. -/
def ModelMap : List (String × String) :=
  [("claude-3-5-sonnet-20241022", "CLAUDE_3_5_SONNET_20241022_V2_0"),
   ("claude-3-5-sonnet-20240620", "CLAUDE_3_5_SONNET_20240620_V1_0"),
   ("claude-3-5-haiku-20241022", "CLAUDE_3_5_HAIKU_20241022_V1_0"),
   ("claude-3-opus-20240229", "CLAUDE_3_OPUS_20240229_V1_0"),
   ("claude-3-sonnet-20240229", "CLAUDE_3_SONNET_20240229_V1_0"),
   ("claude-3-haiku-20240307", "CLAUDE_3_HAIKU_20240307_V1_0"),
   ("claude-sonnet-4-20250514", "CLAUDE_SONNET_4_20250514_V1_0")]

/-- Map lookup `ModelMap[m]` with hit/miss distinguished (used by the
gateway's supported-model check `_, ok := ModelMap[...]`). -/
def modelMapLookup (m : String) : Option String :=
  (ModelMap.find? (fun p => p.1 = m)).map Prod.snd

/-- Go map indexing `ModelMap[m]`: the zero value `""` on a miss. -/
def modelMapGet (m : String) : String :=
  (modelMapLookup m).getD ""

/-- One history entry (`HistoryUserMessage` / `HistoryAssistantMessage`,
`main.go` lines 66-80).  `toolUses` is always set to the empty list by
the builder. -/
inductive HistoryItem where
  | user (content : String) (modelId : String) (origin : String)
  | assistant (content : String) (toolUses : List String)
deriving Repr, DecidableEq

/-- The regular-turn history loop of `buildCodeWhispererRequest`
(lines 314-331), re-expressed structurally over the list of all turns
except the last: a `user` turn is emitted; if it is immediately
followed by another non-last turn with role `assistant`, that turn is
emitted too and skipped; every other turn is dropped. -/
def regHistory (modelId : String) : List AnthropicRequestMessage → List HistoryItem
  | [] => []
  | [m] =>
      if m.role = "user" then
        [.user (getMessageContent m.content) modelId "AI_EDITOR"]
      else []
  | m :: m2 :: rest2 =>
      if m.role = "user" then
        .user (getMessageContent m.content) modelId "AI_EDITOR" ::
          (if m2.role = "assistant" then
            .assistant (getMessageContent m2.content) [] :: regHistory modelId rest2
          else regHistory modelId (m2 :: rest2))
      else regHistory modelId (m2 :: rest2)

/-- The synthetic assistant acknowledgment appended after every system
entry (lines 298-300). -/
def assistantDefaultMsg : HistoryItem :=
  .assistant (getMessageContent (.str "I will follow these instructions")) []

/-- The `currentMessage.userInputMessage` part of the upstream request
(the fields the properties read). -/
structure UserInputMessage where
  content : String
  modelId : String
  origin : String
  tools : Option (List CodeWhispererTool)
deriving Repr, DecidableEq

/-- `CodeWhispererRequest` (`main.go` lines 196-220), flattened to the
fields the properties read.  `history` is the `[]any` slice; the Go nil
slice (no history constructed) is the empty list. -/
structure CodeWhispererRequest where
  chatTriggerType : String
  conversationId : String
  currentMessage : UserInputMessage
  history : List HistoryItem
  profileArn : String
deriving Repr, DecidableEq

/-- `buildCodeWhispererRequest` (`main.go` lines 251-337).
`profileArnEnv` is the `KIRO_PROFILE_ARN` environment variable (`""`
when unset) and `conversationId` the freshly generated UUID, both
passed as inputs.  The Go code indexes `Messages[len-1]`, so the
message list must be non-empty (the gateway validates this before
calling). -/
def buildCodeWhispererRequest (profileArnEnv : String) (conversationId : String)
    (req : AnthropicRequest) (hne : req.messages ≠ []) : CodeWhispererRequest :=
  let profileArn :=
    if profileArnEnv = "" then
      "arn:aws:codewhisperer:us-east-1:699475941385:profile/EHGA3GRVQMUK"
    else profileArnEnv
  let lastMessage := req.messages.getLast hne
  let content0 := getMessageContent lastMessage.content
  let content := if trimSpace content0 = "" then "Please provide a response." else content0
  let tools :=
    if req.tools.isEmpty then none
    else some (req.tools.map (fun t => CodeWhispererTool.mk t.name t.description t.inputSchema))
  let history :=
    if req.system ≠ [] ∨ req.messages.length > 1 then
      (req.system.map (fun sysMsg =>
        [HistoryItem.user sysMsg.text (modelMapGet req.model) "AI_EDITOR",
         assistantDefaultMsg])).flatten
      ++ regHistory (modelMapGet req.model) req.messages.dropLast
    else []
  { chatTriggerType := "MANUAL"
    conversationId := conversationId
    currentMessage :=
      { content := content
        modelId := modelMapGet req.model
        origin := "AI_EDITOR"
        tools := tools }
    history := history
    profileArn := profileArn }

/-! ## Gateway validation (`main.go` `startServer` handler,
lines 701-803) -/

/-- The request body after the two decoding steps of the handler: the
generic-JSON check at line 746 fails (`malformedJson`), the decode into
`AnthropicRequest` at line 754 fails (`typeMismatch`), or both succeed
(`parsed`). -/
inductive InboundBody where
  | malformedJson
  | typeMismatch
  | parsed (req : AnthropicRequest)
deriving Repr, DecidableEq

/-- The validation error messages the handler formats, as structured
payloads (each constructor corresponds to one `sendJSONError` call and
carries the dynamic parts of its Go format string). -/
inductive ErrMsg where
  | notValidJson
  | missingModel
  | missingMessages
  | badMaxTokens
  | unknownModel (model : String) (available : String)
  | invalidRole (role : String) (index : Nat)
  | emptyContent (index : Nat)
deriving Repr, DecidableEq

/-- The rendered Go message text for the validation errors whose format
strings are static (the dynamic `%v` error texts of `notValidJson`, and
the role message, are not rendered). -/
def errMsgText : ErrMsg → Option String
  | .missingModel => some "Missing required field: model"
  | .missingMessages => some "Missing required field: messages"
  | .badMaxTokens => some "max_tokens must be a positive integer"
  | .unknownModel m avail =>
      some ("Unknown or unsupported model: " ++ m ++ ". Available models: " ++ avail)
  | _ => none

/-- The `Available models` list in the unknown-model message.  Go
iterates the map in randomized order; the embedding fixes source
order — the properties only read the message prefix before this
part. -/
def availableModels : String :=
  String.intercalate ", " (ModelMap.map Prod.fst)

/-- The per-message content check at line 789: `nil` content is
rejected, and so is content whose `fmt.Sprintf("%v")` rendering is
empty — which among the embedded shapes is exactly the empty string
(lists and maps never render empty, and `nil` is caught first). -/
def contentViolates : MessageContent → Bool
  | .nullV => true
  | .str s => s = ""
  | _ => false

/-- The message-validation loop at lines 784-793: the first message
with a role other than `user`/`assistant`, or with empty content,
yields its error; `i` is the running index. -/
def firstMessageViolation : List AnthropicRequestMessage → Nat → Option ErrMsg
  | [], _ => none
  | m :: rest, i =>
      if m.role ≠ "user" ∧ m.role ≠ "assistant" then some (.invalidRole m.role i)
      else if contentViolates m.content then some (.emptyContent i)
      else firstMessageViolation rest (i + 1)

/-- What the `/v1/messages` handler does with a body (after the token
checks): reject with a JSON error (`sendJSONError` with an HTTP status
and an error `type`), reject with a plain-text error (`http.Error`), or
dispatch to the streaming / aggregate path.  Upstream calls happen only
inside the two dispatch outcomes. -/
inductive GatewayOutcome where
  | jsonError (status : Nat) (errType : String) (msg : ErrMsg)
  | plainError (status : Nat)
  | dispatchStream (req : AnthropicRequest)
  | dispatchNonStream (req : AnthropicRequest)
deriving Repr, DecidableEq

/-- The validation and dispatch logic of the `/v1/messages` handler
(`main.go` lines 744-803), translated check for check in source
order. -/
def gatewayHandle : InboundBody → GatewayOutcome
  | .malformedJson => .jsonError 400 "invalid_request_error" .notValidJson
  | .typeMismatch => .plainError 400
  | .parsed req =>
      if req.model = "" then
        .jsonError 400 "invalid_request_error" .missingModel
      else if req.messages.isEmpty then
        .jsonError 400 "invalid_request_error" .missingMessages
      else if req.maxTokens ≤ 0 then
        .jsonError 400 "invalid_request_error" .badMaxTokens
      else if modelMapLookup req.model = none then
        .jsonError 400 "invalid_request_error" (.unknownModel req.model availableModels)
      else
        match firstMessageViolation req.messages 0 with
        | some v => .jsonError 400 "invalid_request_error" v
        | none =>
            if req.stream then .dispatchStream req else .dispatchNonStream req

/-! ## Error classification and credential coordination (`main.go`
lines 888-911, 1039-1066, 1202-1226) -/

/-- What the streaming path writes to the caller on a failure: an SSE
`error` event (always built by `sendErrorEvent`), or nothing because
the process exited first (`refreshToken` calls `os.Exit(1)` on any
refresh failure). -/
inductive StreamReport where
  | event (errType : String) (message : String)
  | processExit
deriving Repr, DecidableEq

/-- `sendErrorEvent` (`main.go` lines 1202-1212): the error type is the
literal `api_error` and the message is `message: err`. -/
def sendErrorEvent (message : String) (err : String) : StreamReport :=
  .event "api_error" (message ++ ": " ++ err)

/-- The JSON error written by `sendJSONError` on the aggregate path. -/
structure JsonReport where
  status : Nat
  errType : String
  message : String
deriving Repr, DecidableEq

/-- The observable handling of one upstream failure: how many times the
credential refresh was attempted, how many times the original upstream
request was re-sent, and the report written to the caller. -/
structure FailureOutcome (R : Type) where
  refreshAttempts : Nat
  upstreamResends : Nat
  report : R
deriving Repr, DecidableEq

/-- The non-200 status dispatch of `handleNonStreamRequest` (`main.go`
lines 1044-1065): each branch sends one `sendJSONError` and returns; the
403 branch first makes exactly one `refreshTokenSilently` attempt
(`refreshOk` is its outcome) and reports `permission_error` either way;
no branch re-sends the upstream request. -/
def nonStreamUpstreamFailure (status : Nat) (body : String) (refreshOk : Bool) :
    FailureOutcome JsonReport :=
  if status = 400 then
    ⟨0, 0, ⟨400, "invalid_request_error", "请求参数错误: " ++ body⟩⟩
  else if status = 401 then
    ⟨0, 0, ⟨401, "authentication_error", "认证失败，请检查token"⟩⟩
  else if status = 403 then
    if refreshOk then
      ⟨1, 0, ⟨403, "permission_error", "Token已刷新，请重试请求"⟩⟩
    else
      ⟨1, 0, ⟨403, "permission_error", "权限不足且Token刷新失败，请重新登录"⟩⟩
  else if status = 429 then
    ⟨0, 0, ⟨429, "rate_limit_error", "请求频率过高，请稍后重试"⟩⟩
  else if status = 500 then
    ⟨0, 0, ⟨500, "api_error", "CodeWhisperer服务器内部错误"⟩⟩
  else if status = 502 ∨ status = 503 ∨ status = 504 then
    ⟨0, 0, ⟨503, "overloaded_error", "CodeWhisperer服务暂时不可用，请稍后重试"⟩⟩
  else
    ⟨0, 0, ⟨status, "api_error",
      "CodeWhisperer返回错误，状态码: " ++ toString status ++ ", 响应: " ++ body⟩⟩

/-- The non-200 status dispatch of `handleStreamRequest` (`main.go`
lines 888-911): each branch sends one `sendErrorEvent` and returns; the
403 branch first calls the CLI `refreshToken()`, which on any failure
terminates the process with `os.Exit(1)` before anything is sent, and
on success returns so that the `api_error` event is sent; no branch
re-sends the upstream request. -/
def streamUpstreamFailure (status : Nat) (body : String) (refreshOk : Bool) :
    FailureOutcome StreamReport :=
  if status = 400 then
    ⟨0, 0, sendErrorEvent "请求参数错误" ("Bad Request: " ++ body)⟩
  else if status = 401 then
    ⟨0, 0, sendErrorEvent "认证失败" "Unauthorized: 请检查token"⟩
  else if status = 403 then
    if refreshOk then
      ⟨1, 0, sendErrorEvent "权限不足" "Forbidden: Token已刷新，请重试"⟩
    else
      ⟨1, 0, .processExit⟩
  else if status = 429 then
    ⟨0, 0, sendErrorEvent "请求频率过高" "Rate Limited: 请稍后重试"⟩
  else if status = 500 then
    ⟨0, 0, sendErrorEvent "服务器内部错误" "Internal Server Error: CodeWhisperer服务异常"⟩
  else if status = 502 ∨ status = 503 ∨ status = 504 then
    ⟨0, 0, sendErrorEvent "服务不可用" "Service Unavailable: CodeWhisperer服务暂时不可用"⟩
  else
    ⟨0, 0, sendErrorEvent "未知错误"
      ("状态码: " ++ toString status ++ ", 响应: " ++ body)⟩

/-- The local failures of the streaming path before or during the
upstream call (request serialization, request creation, the HTTP call
itself, reading the reply); each is reported through
`sendErrorEvent`. -/
inductive StreamLocalFailure where
  | marshalFailure (err : String)
  | newRequestFailure (err : String)
  | doRequestFailure (err : String)
  | readBodyFailure
deriving Repr, DecidableEq

/-- The `sendErrorEvent` call each local streaming failure makes
(`main.go` lines 850-918). -/
def streamLocalFailureReport : StreamLocalFailure → StreamReport
  | .marshalFailure err => sendErrorEvent "序列化请求失败" err
  | .newRequestFailure err => sendErrorEvent "创建代理请求失败" err
  | .doRequestFailure err => sendErrorEvent "CodeWhisperer request error" ("request error: " ++ err)
  | .readBodyFailure => sendErrorEvent "error" "CodeWhisperer Error 读取响应失败"

/-- Modelled from the spec: the streaming `message_delta` is claimed to
carry an output-token count equal to the length of the last text delta
observed among the forwarded `content_block_delta` events.  This is the
spec's quantity, written from the spec's words for comparison with the
code's `streamOutputTokens`. -/
def specLastTextDeltaLen (events : List SSEEvent) : Nat :=
  events.foldl
    (fun acc e =>
      match e.data with
      | .contentBlockDelta _ (.textDelta t) => t.length
      | _ => acc)
    0

/-! ## Theorems -/

/-- C1 counterexample: for the backend reply made of the text fragments
"Hello " and "world" followed by a stop-flagged fragment with no tool
id or name, the aggregate response's content is NOT one text block
"Hello world": the stop fragment is normalized to a slot-1
`content_block_stop`, so the fold emits a single degenerate `tool_use`
block with empty id, name and input, and the accumulated text never
reaches the content list. -/
theorem c1_counterexample :
    (nonStreamResponse "claude-3-5-sonnet-20241022" "hi"
      (parseEvents
        [.data ⟨"Hello ", none, "", "", false⟩,
         .data ⟨"world", none, "", "", false⟩,
         .data ⟨"", none, "", "", true⟩])).content
      = [AggBlock.toolUse "" "" []]
    ∧ [AggBlock.toolUse "" "" []] ≠ [AggBlock.text "Hello world"] := by
  exact ⟨by decide, by decide⟩

/-- C1 (amended): for that backend reply, aggregate assembly returns a
response whose content is exactly one `tool_use` block with empty id,
empty name and empty input object — the stop marker without tool
identity is treated as a slot-1 stop, so no text block is emitted. -/
theorem c1_amended : ∀ (model curr : String),
    (nonStreamResponse model curr
      (parseEvents
        [.data ⟨"Hello ", none, "", "", false⟩,
         .data ⟨"world", none, "", "", false⟩,
         .data ⟨"", none, "", "", true⟩])).content
      = [AggBlock.toolUse "" "" []] := by
  intro _ _
  rfl

/-- C4: a tool-use start (id `t1`, name `lookup`, no input), input
fragments `{"q":` and `"x"}`, then a tool stop aggregate to exactly one
`tool_use` block with id `t1`, name `lookup` and input `{"q":"x"}`; and
whenever the concatenated partial-input string fails to parse as JSON,
the block is emitted with an empty input object instead of the request
failing. -/
theorem c4_tool_use_aggregate :
    aggregateContexts
        (parseEvents
          [.data ⟨"", none, "lookup", "t1", false⟩,
           .data ⟨"", some "\x7b\"q\":", "lookup", "t1", false⟩,
           .data ⟨"", some "\"x\"\x7d", "lookup", "t1", false⟩,
           .data ⟨"", none, "lookup", "t1", true⟩])
      = [AggBlock.toolUse "t1" "lookup" [("q", "x")]]
    ∧ ∀ pj : String, jsonUnmarshalObj pj = none →
        aggregateContexts
            (parseEvents
              [.data ⟨"", none, "lookup", "t1", false⟩,
               .data ⟨"", some pj, "lookup", "t1", false⟩,
               .data ⟨"", none, "lookup", "t1", true⟩])
          = [AggBlock.toolUse "t1" "lookup" []] := by
  constructor
  · decide
  · intro pj h
    simp [parseEvents, convertAssistantEventToSSE, aggregateContexts, aggFold, aggStep, h]

/-- C4 witness: the general parse-failure conjunct applied to the
concrete invalid input `{"q":`. -/
theorem c4_tool_use_aggregate_witness :
    jsonUnmarshalObj "\x7b\"q\":" = none
    ∧ aggregateContexts
        (parseEvents
          [.data ⟨"", none, "lookup", "t1", false⟩,
           .data ⟨"", some "\x7b\"q\":", "lookup", "t1", false⟩,
           .data ⟨"", none, "lookup", "t1", true⟩])
      = [AggBlock.toolUse "t1" "lookup" []] :=
  ⟨by decide, c4_tool_use_aggregate.2 "\x7b\"q\":" (by decide)⟩

/-- C10: whenever the parsed normalized event sequence of a backend
reply is empty, the streaming handler emits no envelope events at
all. -/
theorem c10_empty_stream : ∀ (msgId model : String) (it : Nat) (rawLines : List RawLine),
    parseEvents rawLines = [] →
    streamEmission msgId model it (parseEvents rawLines) = [] := by
  intro _ _ _ rawLines h
  rw [h]
  rfl

/-- C10 witness: a reply consisting of only the `[DONE]` sentinel
parses to no events, and the handler emits nothing for it. -/
theorem c10_empty_stream_witness :
    parseEvents [RawLine.done] = []
    ∧ streamEmission "m" "c" 0 (parseEvents [RawLine.done]) = [] :=
  ⟨by decide, c10_empty_stream "m" "c" 0 [RawLine.done] (by decide)⟩

/-- C8: content extraction of a block list all of whose elements are
`tool_use` blocks yields the fixed placeholder, never the empty
string. -/
theorem c8_tool_use_only_placeholder : ∀ items : List BlockListItem,
    (∀ b ∈ items, ∃ cb, b = BlockListItem.block cb ∧ cb.ty = "tool_use") →
    getMessageContent (.blocks items) = "Please provide a response."
    ∧ getMessageContent (.blocks items) ≠ "" := by
  intro items hall
  have hcollect : collectTexts items = [] := by
    induction items with
    | nil => rfl
    | cons b rest ih =>
        obtain ⟨cb, rfl, hty⟩ := hall b (List.mem_cons_self b rest)
        have := ih (fun x hx => hall x (List.mem_cons_of_mem _ hx))
        simp [collectTexts, hty, this]
  constructor
  · simp [getMessageContent, hcollect]
  · simp [getMessageContent, hcollect]

/-- C8 witness: a singleton list holding one `tool_use` block. -/
theorem c8_tool_use_only_placeholder_witness :
    getMessageContent (.blocks [BlockListItem.block ⟨"tool_use", none, none, none, none⟩])
      = "Please provide a response."
    ∧ getMessageContent (.blocks [BlockListItem.block ⟨"tool_use", none, none, none, none⟩])
      ≠ "" :=
  c8_tool_use_only_placeholder [BlockListItem.block ⟨"tool_use", none, none, none, none⟩]
    (by intro b hb; simp at hb; exact ⟨_, hb, rfl⟩)

/-- C5 counterexample: on the streaming path a 403 whose refresh
succeeds is reported as an `api_error` SSE event, not as a
`permission_error` — so it is false that a permission_error is reported
to the caller on every 403 regardless of refresh outcome. -/
theorem c5_counterexample :
    (streamUpstreamFailure 403 "" true).report
      = StreamReport.event "api_error" "权限不足: Forbidden: Token已刷新，请重试"
    ∧ "api_error" ≠ "permission_error" :=
  ⟨by decide, by decide⟩

/-- C5 (amended): every 403 upstream response triggers exactly one
credential-refresh attempt and never a re-send of the original upstream
request, on both paths; the aggregate path reports `permission_error`
with HTTP 403 regardless of refresh outcome, while the streaming path
reports an `api_error` SSE event when the refresh succeeds and
terminates the process (reporting nothing) when it fails. -/
theorem c5_amended : ∀ (body : String) (refreshOk : Bool),
    ((nonStreamUpstreamFailure 403 body refreshOk).refreshAttempts = 1
      ∧ (nonStreamUpstreamFailure 403 body refreshOk).upstreamResends = 0
      ∧ (nonStreamUpstreamFailure 403 body refreshOk).report.errType = "permission_error"
      ∧ (nonStreamUpstreamFailure 403 body refreshOk).report.status = 403)
    ∧ ((streamUpstreamFailure 403 body refreshOk).refreshAttempts = 1
      ∧ (streamUpstreamFailure 403 body refreshOk).upstreamResends = 0
      ∧ (streamUpstreamFailure 403 body refreshOk).report
          = (if refreshOk then
              StreamReport.event "api_error" "权限不足: Forbidden: Token已刷新，请重试"
            else StreamReport.processExit)) := by
  intro body refreshOk
  cases refreshOk <;>
    exact ⟨⟨rfl, rfl, rfl, rfl⟩, rfl, rfl, rfl⟩

/-- C9 counterexample: a streaming-path 403 whose credential refresh
fails does NOT produce an error event at all — `refreshToken()` calls
`os.Exit(1)`, so the process terminates before anything is written —
contradicting the claim that every upstream failure is reported as an
`api_error` event. -/
theorem c9_counterexample :
    streamUpstreamFailure 403 "" false
      = { refreshAttempts := 1, upstreamResends := 0, report := StreamReport.processExit } := by
  decide

/-- C9 (amended): on the streaming path every upstream failure and every
local failure is reported to the caller through `sendErrorEvent`, whose
error type field is always `api_error` — except a 403 whose credential
refresh fails, which terminates the process without reporting; no
failure re-sends the original upstream request. -/
theorem c9_amended :
    (∀ (status : Nat) (body : String) (refreshOk : Bool),
      (status = 403 ∧ refreshOk = false
        ∧ streamUpstreamFailure status body refreshOk
            = { refreshAttempts := 1, upstreamResends := 0, report := StreamReport.processExit })
      ∨ (∃ msg, (streamUpstreamFailure status body refreshOk).report
            = StreamReport.event "api_error" msg
          ∧ (streamUpstreamFailure status body refreshOk).upstreamResends = 0))
    ∧ (∀ f : StreamLocalFailure,
        ∃ msg, streamLocalFailureReport f = StreamReport.event "api_error" msg) := by
  constructor
  · intro status body refreshOk
    unfold streamUpstreamFailure
    split_ifs with h1 h2 h3 h4 h5 h6 h7
    · exact Or.inr ⟨_, rfl, rfl⟩
    · exact Or.inr ⟨_, rfl, rfl⟩
    · exact Or.inr ⟨_, rfl, rfl⟩
    · exact Or.inl ⟨h3, by simp_all, rfl⟩
    · exact Or.inr ⟨_, rfl, rfl⟩
    · exact Or.inr ⟨_, rfl, rfl⟩
    · exact Or.inr ⟨_, rfl, rfl⟩
    · exact Or.inr ⟨_, rfl, rfl⟩
  · intro f
    cases f <;> exact ⟨_, rfl⟩

/-- C6: a malformed JSON body, a missing model, a non-positive
`max_tokens`, or an unsupported model each make the gateway reject the
request with HTTP 400 and error type `invalid_request_error` before
any dispatch (upstream calls happen only inside the dispatch
outcomes), and the unknown-model rejection message names the rejected
model value. -/
theorem c6_validation :
    (gatewayHandle .malformedJson
        = .jsonError 400 "invalid_request_error" .notValidJson)
    ∧ (∀ req : AnthropicRequest,
        req.model = "" ∨ req.maxTokens ≤ 0 ∨ modelMapLookup req.model = none →
        ∃ m, gatewayHandle (.parsed req) = .jsonError 400 "invalid_request_error" m)
    ∧ (∀ req : AnthropicRequest,
        req.model ≠ "" → ¬req.messages.isEmpty → 0 < req.maxTokens →
        modelMapLookup req.model = none →
        gatewayHandle (.parsed req)
            = .jsonError 400 "invalid_request_error" (.unknownModel req.model availableModels)
        ∧ errMsgText (.unknownModel req.model availableModels)
            = some ("Unknown or unsupported model: " ++ req.model
                ++ (". Available models: " ++ availableModels))) := by
  refine ⟨rfl, ?_, ?_⟩
  · intro req h
    unfold gatewayHandle
    dsimp only
    split_ifs with h1 h2 h3 h4 <;>
      first
        | exact ⟨_, rfl⟩
        | exact h.elim (fun hx => absurd hx h1)
            (fun hy => hy.elim (fun hx => absurd hx (by omega)) (fun hx => absurd hx h4))
  · intro req h1 h2 h3 h4
    refine ⟨?_, by simp [errMsgText, String.append_assoc]⟩
    unfold gatewayHandle
    dsimp only
    rw [if_neg h1, if_neg h2, if_neg (by omega), if_pos h4]

/-- C6 witness: the unsupported model id `gpt-4` on an otherwise valid
request is rejected with 400 `invalid_request_error` and a message
naming `gpt-4`. -/
theorem c6_validation_witness :
    gatewayHandle (.parsed ⟨"gpt-4", 100, [⟨"user", .str "hi"⟩], [], [], false⟩)
        = .jsonError 400 "invalid_request_error" (.unknownModel "gpt-4" availableModels)
    ∧ errMsgText (.unknownModel "gpt-4" availableModels)
        = some ("Unknown or unsupported model: " ++ "gpt-4"
            ++ (". Available models: " ++ availableModels)) :=
  c6_validation.2.2 ⟨"gpt-4", 100, [⟨"user", .str "hi"⟩], [], [], false⟩
    (by decide) (by decide) (by decide) (by decide)

/-- C7: every system entry contributes exactly one synthetic user turn
carrying its text immediately followed by one synthetic assistant turn
carrying the fixed acknowledgment with no tool calls, in input order,
and all such pairs precede the history built from regular turns; a
request with exactly one message and no system entries constructs no
history at all. -/
theorem c7_history : ∀ (arn convId : String) (req : AnthropicRequest)
    (hne : req.messages ≠ []),
    (req.system ≠ [] →
      (buildCodeWhispererRequest arn convId req hne).history =
        (req.system.map (fun sysMsg =>
          [HistoryItem.user sysMsg.text (modelMapGet req.model) "AI_EDITOR",
           HistoryItem.assistant
             (getMessageContent (.str "I will follow these instructions")) []])).flatten
        ++ regHistory (modelMapGet req.model) req.messages.dropLast)
    ∧ (req.messages.length = 1 → req.system = [] →
        (buildCodeWhispererRequest arn convId req hne).history = []) := by
  intro arn convId req hne
  constructor
  · intro hsys
    simp only [buildCodeWhispererRequest]
    rw [if_pos (Or.inl hsys)]
    rfl
  · intro hlen hsys
    simp only [buildCodeWhispererRequest]
    rw [if_neg]
    push_neg
    exact ⟨hsys, by omega⟩

/-- C7 witness: one system entry and two messages yield the synthetic
pair followed by the regular-turn history; a single message without
system entries yields no history. -/
theorem c7_history_witness :
    ((⟨"claude-3-5-haiku-20241022", 5,
        [⟨"user", .str "hi"⟩, ⟨"user", .str "bye"⟩],
        [⟨"text", "be brief"⟩], [], false⟩ : AnthropicRequest).system ≠ []
      ∧ (buildCodeWhispererRequest "" "cid"
          ⟨"claude-3-5-haiku-20241022", 5,
            [⟨"user", .str "hi"⟩, ⟨"user", .str "bye"⟩],
            [⟨"text", "be brief"⟩], [], false⟩ (by decide)).history =
          [HistoryItem.user "be brief" "CLAUDE_3_5_HAIKU_20241022_V1_0" "AI_EDITOR",
           HistoryItem.assistant "I will follow these instructions" [],
           HistoryItem.user "hi" "CLAUDE_3_5_HAIKU_20241022_V1_0" "AI_EDITOR"])
    ∧ (buildCodeWhispererRequest "" "cid"
        ⟨"claude-3-5-haiku-20241022", 5, [⟨"user", .str "hi"⟩], [], [], false⟩
        (by decide)).history = [] := by
  constructor
  · refine ⟨by decide, ?_⟩
    rw [(c7_history "" "cid"
      ⟨"claude-3-5-haiku-20241022", 5,
        [⟨"user", .str "hi"⟩, ⟨"user", .str "bye"⟩],
        [⟨"text", "be brief"⟩], [], false⟩ (by decide)).1 (by decide)]
    decide
  · exact (c7_history "" "cid"
      ⟨"claude-3-5-haiku-20241022", 5, [⟨"user", .str "hi"⟩], [], [], false⟩
      (by decide)).2 (by decide) (by decide)

/-- Every parser data map (and the zero event's nil data) falls into a
branch of `getMessageContent` that returns the fixed placeholder. -/
theorem gmc_dataAsContent (d : SSEData) :
    getMessageContent (dataAsContent d) = "Please provide a response." := by
  cases d <;> rfl

/-- The streaming token-counter fold: from any start value, the result
is the placeholder length as soon as any `content_block_delta` event is
present, and the start value otherwise. -/
theorem streamOutputTokens_foldl (events : List SSEEvent) (a : Nat) :
    events.foldl
        (fun acc e =>
          if e.event = "content_block_delta" then
            (getMessageContent (dataAsContent e.data)).length
          else acc)
        a
      = if ∃ e ∈ events, e.event = "content_block_delta" then
          ("Please provide a response.").length
        else a := by
  induction events generalizing a with
  | nil => simp
  | cons e rest ih =>
      by_cases he : e.event = "content_block_delta"
      · rw [List.foldl_cons, if_pos he, ih, gmc_dataAsContent]
        have hc : ∃ x ∈ e :: rest, x.event = "content_block_delta" :=
          ⟨e, List.mem_cons_self e rest, he⟩
        rw [if_pos hc]
        split_ifs <;> rfl
      · rw [List.foldl_cons, if_neg he, ih]
        have hiff : (∃ x ∈ e :: rest, x.event = "content_block_delta")
            ↔ ∃ x ∈ rest, x.event = "content_block_delta" := by
          constructor
          · rintro ⟨x, hx, p⟩
            rcases List.mem_cons.mp hx with rfl | hx2
            · exact absurd p he
            · exact ⟨x, hx2, p⟩
          · rintro ⟨x, hx, p⟩
            exact ⟨x, List.mem_cons_of_mem _ hx, p⟩
        simp only [hiff]

/-- The closing token counter of `handleStreamRequest` in closed form:
`len("Please provide a response.")` whenever any `content_block_delta`
was forwarded (every delta's data is a map, so `getMessageContent`
always lands in its placeholder branch), and `0` otherwise. -/
theorem streamOutputTokens_eq (events : List SSEEvent) :
    streamOutputTokens events
      = if ∃ e ∈ events, e.event = "content_block_delta" then
          ("Please provide a response.").length
        else 0 :=
  streamOutputTokens_foldl events 0

/-- C2 counterexample: for the single forwarded text delta `Hello!`
(length 6) the emitted `message_delta` carries `output_tokens = 26`,
the placeholder length — not the length of the last text delta. -/
theorem c2_counterexample :
    (streamEmission "m" "c" 0
          (parseEvents [.data ⟨"Hello!", none, "", "", false⟩])).filter
        (fun p => p.1 == "message_delta")
      = [("message_delta", EnvData.messageDeltaData "end_turn" 26)]
    ∧ specLastTextDeltaLen (parseEvents [.data ⟨"Hello!", none, "", "", false⟩]) = 6
    ∧ (26 : Nat) ≠ 6 :=
  ⟨by decide, by decide, by decide⟩

/-- C2 (amended): for every non-empty normalized event sequence the
closing `message_delta` carries stop reason `end_turn` and an
`output_tokens` equal to the length of the fixed placeholder string
(26) whenever at least one `content_block_delta` was forwarded, and 0
otherwise — because the counter applies `getMessageContent` to the
delta's structured data map, never to its text — not the length of the
last text delta. -/
theorem c2_amended : ∀ (msgId model : String) (it : Nat) (events : List SSEEvent),
    events ≠ [] →
    ∃ mid,
      streamEmission msgId model it events =
        [("message_start", EnvData.messageStartData msgId model it 1),
         ("ping", EnvData.pingData),
         ("content_block_start", EnvData.contentBlockStartText 0)]
        ++ mid ++
        [("content_block_stop", EnvData.contentBlockStopData 0),
         ("message_delta", EnvData.messageDeltaData "end_turn"
            (if ∃ e ∈ events, e.event = "content_block_delta" then
              ("Please provide a response.").length
            else 0)),
         ("message_stop", EnvData.messageStopData)] := by
  intro msgId model it events h
  refine ⟨events.map (fun e => (e.event, EnvData.fromParser e.data)), ?_⟩
  unfold streamEmission
  rw [if_neg (by simp [h]), streamOutputTokens_eq]

/-- C2 witness: the amended statement applied to a single slot-0 text
delta `Hi`. -/
theorem c2_amended_witness :
    ([(⟨"content_block_delta", SSEData.contentBlockDelta 0 (DeltaPayload.textDelta "Hi")⟩ : SSEEvent)]
       ≠ ([] : List SSEEvent))
    ∧ ∃ mid,
      streamEmission "m" "c" 3
          [⟨"content_block_delta", SSEData.contentBlockDelta 0 (DeltaPayload.textDelta "Hi")⟩] =
        [("message_start", EnvData.messageStartData "m" "c" 3 1),
         ("ping", EnvData.pingData),
         ("content_block_start", EnvData.contentBlockStartText 0)]
        ++ mid ++
        [("content_block_stop", EnvData.contentBlockStopData 0),
         ("message_delta", EnvData.messageDeltaData "end_turn"
            (if ∃ e ∈
                [(⟨"content_block_delta",
                    SSEData.contentBlockDelta 0 (DeltaPayload.textDelta "Hi")⟩ : SSEEvent)],
                e.event = "content_block_delta" then
              ("Please provide a response.").length
            else 0)),
         ("message_stop", EnvData.messageStopData)] :=
  ⟨by decide,
   c2_amended "m" "c" 3
     [⟨"content_block_delta", SSEData.contentBlockDelta 0 (DeltaPayload.textDelta "Hi")⟩]
     (by decide)⟩

/-- No event produced by `convertAssistantEventToSSE` is a
`content_block_start` with index 0: tool starts use index 1 and every
other shape has a different event name. -/
theorem convert_no_cbStart0 (evt : AssistantResponseEvent) :
    isCBStart0 ((convertAssistantEventToSSE evt).event,
      EnvData.fromParser (convertAssistantEventToSSE evt).data) = false := by
  unfold convertAssistantEventToSSE
  split_ifs with h1 h2 h3
  · rfl
  · cases evt.input <;> rfl
  · rfl
  · rfl

/-- No event in a parsed normalized sequence is a `content_block_start`
with index 0. -/
theorem parseEvents_no_cbStart0 (L : List RawLine) :
    (parseEvents L).countP
        (fun e => isCBStart0 (e.event, EnvData.fromParser e.data)) = 0 := by
  induction L with
  | nil => rfl
  | cons hd rest ih =>
      cases hd with
      | done => rfl
      | malformed => simpa [parseEvents] using ih
      | other => simpa [parseEvents] using ih
      | data evt =>
          rw [parseEvents, List.countP_append, List.countP_cons, ih,
            convert_no_cbStart0]
          split_ifs <;> first | rfl | contradiction

/-- Last element of a list ending in a fixed three-element suffix. -/
theorem getLast?_append3 {α : Type} (xs ys : List α) (a b c : α) :
    (xs ++ (ys ++ [a, b, c])).getLast? = some c := by
  rw [show ([a, b, c] : List α) = [a, b] ++ [c] from rfl, ← List.append_assoc,
    ← List.append_assoc, List.getLast?_concat]

/-- C3: for every non-empty parsed normalized event sequence the
streaming envelope starts with `message_start`, ends with
`message_stop`, and contains exactly one `content_block_start` with
index 0, which occurs before every `content_block_delta` with
index 0. -/
theorem c3_stream_envelope : ∀ (msgId model : String) (it : Nat)
    (rawLines : List RawLine),
    parseEvents rawLines ≠ [] →
    ((streamEmission msgId model it (parseEvents rawLines)).head?.map Prod.fst
        = some "message_start")
    ∧ ((streamEmission msgId model it (parseEvents rawLines)).getLast?.map Prod.fst
        = some "message_stop")
    ∧ (streamEmission msgId model it (parseEvents rawLines)).countP isCBStart0 = 1
    ∧ ∃ pre post,
        streamEmission msgId model it (parseEvents rawLines)
          = pre ++ ("content_block_start", EnvData.contentBlockStartText 0) :: post
        ∧ pre.countP isCBStart0 = 0
        ∧ post.countP isCBStart0 = 0
        ∧ pre.countP isDelta0 = 0 := by
  intro msgId model it rawLines h
  have hz := parseEvents_no_cbStart0 rawLines
  have hmap : (List.map (fun e => (e.event, EnvData.fromParser e.data))
      (parseEvents rawLines)).countP isCBStart0 = 0 := by
    rw [List.countP_map]
    exact hz
  rcases hev : parseEvents rawLines with _ | ⟨e, es⟩
  · exact absurd hev h
  rw [hev] at hz hmap
  have hemission : streamEmission msgId model it (e :: es) =
      [("message_start", EnvData.messageStartData msgId model it 1),
       ("ping", EnvData.pingData),
       ("content_block_start", EnvData.contentBlockStartText 0)]
      ++ List.map (fun ev => (ev.event, EnvData.fromParser ev.data)) (e :: es)
      ++ [("content_block_stop", EnvData.contentBlockStopData 0),
          ("message_delta", EnvData.messageDeltaData "end_turn"
            (streamOutputTokens (e :: es))),
          ("message_stop", EnvData.messageStopData)] := by
    rfl
  refine ⟨?_, ?_, ?_, ?_⟩
  · rw [hemission]
    rfl
  · rw [hemission, List.append_assoc, getLast?_append3]
    rfl
  · rw [hemission, List.append_assoc, List.countP_append, List.countP_append, hmap]
    rfl
  · refine ⟨[("message_start", EnvData.messageStartData msgId model it 1),
      ("ping", EnvData.pingData)],
      List.map (fun ev => (ev.event, EnvData.fromParser ev.data)) (e :: es)
      ++ [("content_block_stop", EnvData.contentBlockStopData 0),
          ("message_delta", EnvData.messageDeltaData "end_turn"
            (streamOutputTokens (e :: es))),
          ("message_stop", EnvData.messageStopData)],
      ?_, rfl, ?_, rfl⟩
    · rw [hemission]
      rfl
    · rw [List.countP_append, hmap]
      rfl

/-- C3 witness: the envelope property at the concrete one-fragment
reply `hi`. -/
theorem c3_stream_envelope_witness :
    parseEvents [RawLine.data ⟨"hi", none, "", "", false⟩] ≠ []
    ∧ (((streamEmission "m" "c" 2
          (parseEvents [RawLine.data ⟨"hi", none, "", "", false⟩])).head?.map Prod.fst
        = some "message_start")
      ∧ ((streamEmission "m" "c" 2
          (parseEvents [RawLine.data ⟨"hi", none, "", "", false⟩])).getLast?.map Prod.fst
        = some "message_stop")
      ∧ (streamEmission "m" "c" 2
          (parseEvents [RawLine.data ⟨"hi", none, "", "", false⟩])).countP isCBStart0 = 1
      ∧ ∃ pre post,
          streamEmission "m" "c" 2 (parseEvents [RawLine.data ⟨"hi", none, "", "", false⟩])
            = pre ++ ("content_block_start", EnvData.contentBlockStartText 0) :: post
          ∧ pre.countP isCBStart0 = 0
          ∧ post.countP isCBStart0 = 0
          ∧ pre.countP isDelta0 = 0) :=
  ⟨by decide,
   c3_stream_envelope "m" "c" 2 [RawLine.data ⟨"hi", none, "", "", false⟩] (by decide)⟩

/-- C1 amended-statement witness at concrete model and current-turn
content. -/
theorem c1_amended_witness :
    (nonStreamResponse "claude-3-5-sonnet-20241022" "hi"
      (parseEvents
        [.data ⟨"Hello ", none, "", "", false⟩,
         .data ⟨"world", none, "", "", false⟩,
         .data ⟨"", none, "", "", true⟩])).content
      = [AggBlock.toolUse "" "" []] :=
  c1_amended "claude-3-5-sonnet-20241022" "hi"

/-- C5 amended-statement witness: the aggregate path at a concrete 403
with a failing refresh. -/
theorem c5_amended_witness :
    (nonStreamUpstreamFailure 403 "" false).refreshAttempts = 1
    ∧ (nonStreamUpstreamFailure 403 "" false).upstreamResends = 0
    ∧ (nonStreamUpstreamFailure 403 "" false).report.errType = "permission_error"
    ∧ (nonStreamUpstreamFailure 403 "" false).report.status = 403 :=
  (c5_amended "" false).1

/-- C9 amended-statement witness: a concrete upstream 401 on the
streaming path is reported as an `api_error` event. -/
theorem c9_amended_witness :
    ((401 : Nat) = 403 ∧ false = false
      ∧ streamUpstreamFailure 401 "" false
          = { refreshAttempts := 1, upstreamResends := 0, report := StreamReport.processExit })
    ∨ (∃ msg, (streamUpstreamFailure 401 "" false).report = StreamReport.event "api_error" msg
        ∧ (streamUpstreamFailure 401 "" false).upstreamResends = 0) :=
  c9_amended.1 401 "" false

end Kiro2cc
